import Mathlib

/-!
# Verification of the Projeto_QFM dashboard core computations

Shallow embedding of `src/app.py` (a Streamlit dashboard for exploring
physicochemical properties of approved drugs).  Python floats are modelled
as exact rationals (`ℚ`); the matplotlib / streamlit rendering calls are
elided and only the numeric and label artifacts they receive are kept.
External collaborators (RDKit parsing and descriptor computation, the
scipy Mann-Whitney p-value routine) are passed as explicit parameters.
-/

namespace ProjetoQFM

/-- The failure modes relevant to the dashboard.  The first three are the
Python exceptions the code can actually raise: `zeroDivisionError` from the
normalization at line 53 of `src/app.py`, `argumentError` from calling an
RDKit descriptor function on `None` (lines 20-24), and `valueError` from
`Draw.MolToImage(None)` (line 92).  The last three are the *named* error
kinds the specification postulates; no code in the repository defines or
raises them, they are included so that statements can compare the actual
failure mode against the specified one. -/
inductive PyError where
  | zeroDivisionError
  | argumentError
  | valueError
  | invalidInputError
  | degenerateRangeError
  | invalidStructureError
  deriving DecidableEq, Repr

/-! ## Radar normalizer (src/app.py lines 45-88) -/

/-- Python's `zip` over three lists: truncates to the shortest input. -/
def zip3 : List ℚ → List ℚ → List ℚ → List (ℚ × ℚ × ℚ)
  | v :: vs, mn :: mns, mx :: mxs => (v, mn, mx) :: zip3 vs mns mxs
  | _, _, _ => []

/-- The body of the list comprehension at line 53:
`[(value - min_val) / (max_val - min_val) for value, min_val, max_val in zip(...)]`.
Python evaluates the comprehension left to right and raises
`ZeroDivisionError` at the first element whose range is degenerate. -/
def normalizeList : List (ℚ × ℚ × ℚ) → Except PyError (List ℚ)
  | [] => Except.ok []
  | (v, mn, mx) :: rest =>
      if mx - mn = 0 then Except.error PyError.zeroDivisionError
      else
        match normalizeList rest with
        | Except.error e => Except.error e
        | Except.ok tail => Except.ok ((v - mn) / (mx - mn) :: tail)

/-- Line 53 of `src/app.py`: `normalized_values = [(value - min_val) / (max_val - min_val)
for value, min_val, max_val in zip(values, min_values, max_values)]`. -/
def radar_normalized_values (values min_values max_values : List ℚ) :
    Except PyError (List ℚ) :=
  normalizeList (zip3 values min_values max_values)

/-- The numeric and label artifacts `create_radar_plot_with_threshold` hands to
matplotlib.  Axis labels keep the descriptor name paired with its max reference
value (the string formatting of line 50 is elided); angles are stored in turns,
i.e. as the fraction `i / K` of a full circle rather than `2 * pi * i / K`. -/
structure RadarPlotData where
  properties_labels : List (String × ℚ)
  normalized_closed : List ℚ
  angles_closed : List ℚ
  threshold_closed : List ℚ
  deriving DecidableEq, Repr

/-- Embedding of `create_radar_plot_with_threshold` (src/app.py lines 45-88).
The function performs no validation whatsoever: `zip` silently truncates
mismatched lengths, and the only exception the body can raise is the
`ZeroDivisionError` from line 53.  Lines 54, 57-58 and 61-62 close each list
with its own first element; the text annotation at radius
`normalized * 0.85` (lines 76-78) and the matplotlib calls are elided. -/
def create_radar_plot_with_threshold (lipinski_properties : List (String × ℚ))
    (min_values max_values : List ℚ) (title color : String) :
    Except PyError RadarPlotData :=
  let properties := lipinski_properties.map Prod.fst
  let values := lipinski_properties.map Prod.snd
  let properties_labels := properties.zip max_values
  match radar_normalized_values values min_values max_values with
  | Except.error e => Except.error e
  | Except.ok normalized_values =>
      let normalized_closed := normalized_values ++ normalized_values.take 1
      let K := properties.length
      let angles := (List.range K).map (fun i => (i : ℚ) / (K : ℚ))
      let angles_closed := angles ++ angles.take 1
      let threshold_values := List.replicate K (1 : ℚ)
      let threshold_closed := threshold_values ++ threshold_values.take 1
      let _ := title
      let _ := color
      Except.ok ⟨properties_labels, normalized_closed, angles_closed, threshold_closed⟩

/-- Line 189 of `src/app.py`: `min_values = [0, 100, 0, 0, 0]`. -/
def min_values : List ℚ := [0, 100, 0, 0, 0]

/-- Line 190 of `src/app.py`: `max_values = [5, 500, 1, 5, 10]`. -/
def max_values : List ℚ := [5, 500, 1, 5, 10]

/-! ### Basic facts about the normalization comprehension -/

theorem normalizeList_degenerate (l : List (ℚ × ℚ × ℚ))
    (h : ∃ p ∈ l, p.2.1 = p.2.2) :
    normalizeList l = Except.error PyError.zeroDivisionError := by
  induction l with
  | nil => simp at h
  | cons p rest ih =>
      obtain ⟨v, mn, mx⟩ := p
      by_cases hz : mx - mn = 0
      · simp [normalizeList, hz]
      · have hrest : ∃ q ∈ rest, q.2.1 = q.2.2 := by
          obtain ⟨q, hq, he⟩ := h
          rcases List.mem_cons.mp hq with rfl | hmem
          · exact absurd (sub_eq_zero.mpr he.symm) hz
          · exact ⟨q, hmem, he⟩
        simp [normalizeList, hz, ih hrest]

/-- C1: with parallel bounds of the values' length and `min_i < max_i` everywhere,
line 53 succeeds and returns the pure linear rescale
`(value_i - min_i) / (max_i - min_i)`: it is `0` exactly on `value_i = min_i`,
`1` exactly on `value_i = max_i`, and values outside `[min_i, max_i]` land
outside `[0, 1]` — nothing is clamped. -/
theorem radar_normalization_unclamped (values mins maxs : List ℚ)
    (hm : mins.length = values.length) (hM : maxs.length = values.length)
    (hlt : ∀ i < values.length, mins.getD i 0 < maxs.getD i 0) :
    ∃ r, radar_normalized_values values mins maxs = Except.ok r ∧
      r.length = values.length ∧
      ∀ i < values.length,
        r.getD i 0 = (values.getD i 0 - mins.getD i 0) / (maxs.getD i 0 - mins.getD i 0) ∧
        (r.getD i 0 = 0 ↔ values.getD i 0 = mins.getD i 0) ∧
        (r.getD i 0 = 1 ↔ values.getD i 0 = maxs.getD i 0) ∧
        (values.getD i 0 < mins.getD i 0 → r.getD i 0 < 0) ∧
        (maxs.getD i 0 < values.getD i 0 → 1 < r.getD i 0) := by
  induction values generalizing mins maxs with
  | nil =>
      have h1 : mins = [] := List.length_eq_zero.mp hm
      have h2 : maxs = [] := List.length_eq_zero.mp hM
      subst h1; subst h2
      exact ⟨[], rfl, rfl, fun i hi => absurd hi (by simp)⟩
  | cons v vs ih =>
      obtain ⟨mn, mns, rfl⟩ : ∃ a l, mins = a :: l := by
        cases mins with
        | nil => simp at hm
        | cons a l => exact ⟨a, l, rfl⟩
      obtain ⟨mx, mxs, rfl⟩ : ∃ a l, maxs = a :: l := by
        cases maxs with
        | nil => simp at hM
        | cons a l => exact ⟨a, l, rfl⟩
      have h0 : mn < mx := by simpa using hlt 0 (by simp)
      have hpos : (0 : ℚ) < mx - mn := by linarith
      have hne : mx - mn ≠ 0 := ne_of_gt hpos
      have hm' : mns.length = vs.length := by simpa using hm
      have hM' : mxs.length = vs.length := by simpa using hM
      have hlt' : ∀ i < vs.length, mns.getD i 0 < mxs.getD i 0 := by
        intro i hi
        simpa using hlt (i + 1) (by simp; omega)
      obtain ⟨r, hr, hrlen, hprops⟩ := ih mns mxs hm' hM' hlt'
      have hr' : normalizeList (zip3 vs mns mxs) = Except.ok r := hr
      refine ⟨(v - mn) / (mx - mn) :: r, ?_, by simpa using hrlen, ?_⟩
      · show normalizeList (zip3 (v :: vs) (mn :: mns) (mx :: mxs)) = _
        simp [zip3, normalizeList, hne, hr']
      · intro i hi
        match i with
        | 0 =>
            simp only [List.getD_cons_zero]
            refine ⟨by trivial, ?_, ?_, ?_, ?_⟩
            · rw [div_eq_zero_iff]
              simp [hne, sub_eq_zero]
            · rw [div_eq_one_iff_eq hne, sub_left_inj]
            · intro h
              exact div_neg_of_neg_of_pos (by linarith) hpos
            · intro h
              rw [one_lt_div hpos]
              linarith
        | Nat.succ j =>
            simp only [List.getD_cons_succ]
            exact hprops j (by simpa using hi)

/-- Witness for `radar_normalization_unclamped` at the application's own bounds
and the worked example's descriptor values. -/
theorem radar_normalization_unclamped_witness :
    ∃ r, radar_normalized_values [2, 300, 0.8, 3, 4] min_values max_values = Except.ok r ∧
      r.length = ([2, 300, 0.8, 3, 4] : List ℚ).length ∧
      ∀ i < ([2, 300, 0.8, 3, 4] : List ℚ).length,
        r.getD i 0 = (([2, 300, 0.8, 3, 4] : List ℚ).getD i 0 - min_values.getD i 0) /
            (max_values.getD i 0 - min_values.getD i 0) ∧
        (r.getD i 0 = 0 ↔ ([2, 300, 0.8, 3, 4] : List ℚ).getD i 0 = min_values.getD i 0) ∧
        (r.getD i 0 = 1 ↔ ([2, 300, 0.8, 3, 4] : List ℚ).getD i 0 = max_values.getD i 0) ∧
        (([2, 300, 0.8, 3, 4] : List ℚ).getD i 0 < min_values.getD i 0 → r.getD i 0 < 0) ∧
        (max_values.getD i 0 < ([2, 300, 0.8, 3, 4] : List ℚ).getD i 0 → 1 < r.getD i 0) :=
  radar_normalization_unclamped [2, 300, 0.8, 3, 4] min_values max_values
    (by norm_num [min_values]) (by norm_num [max_values])
    (by
      intro i hi
      have hi5 : i < 5 := by simpa using hi
      interval_cases i <;> norm_num [min_values, max_values])

/-- C3 (counterexample): with the second reference range degenerate
(`max_1 = min_1 = 0`), the radar function fails with Python's built-in
`ZeroDivisionError` raised by line 53 — not with a named
`DegenerateRangeError`, which does not exist anywhere in the code. -/
theorem radar_degenerate_range_cex :
    create_radar_plot_with_threshold [("HBD", 2), ("MW", 300), ("QED", 0.8)]
        [0, 0, 0] [5, 0, 1] "t" "c" = Except.error PyError.zeroDivisionError ∧
      PyError.zeroDivisionError ≠ PyError.degenerateRangeError := by
  constructor
  · norm_num [create_radar_plot_with_threshold, radar_normalized_values, normalizeList, zip3]
  · intro h
    cases h

/-- C3 (amended): whenever some zipped triple has `max_i = min_i`, the radar
function raises `ZeroDivisionError` (the unhandled Python built-in), which is
its failure mode there. -/
theorem radar_degenerate_range_zero_division (props : List (String × ℚ))
    (mins maxs : List ℚ) (t c : String)
    (h : ∃ p ∈ zip3 (props.map Prod.snd) mins maxs, p.2.1 = p.2.2) :
    create_radar_plot_with_threshold props mins maxs t c =
      Except.error PyError.zeroDivisionError := by
  have hd : radar_normalized_values (props.map Prod.snd) mins maxs =
      Except.error PyError.zeroDivisionError := normalizeList_degenerate _ h
  simp [create_radar_plot_with_threshold, hd]

/-- Witness for `radar_degenerate_range_zero_division` at a concrete degenerate input. -/
theorem radar_degenerate_range_zero_division_witness :
    create_radar_plot_with_threshold [("A", 1)] [3] [3] "t" "c" =
      Except.error PyError.zeroDivisionError :=
  radar_degenerate_range_zero_division [("A", 1)] [3] [3] "t" "c"
    ⟨(1, 3, 3), by norm_num [zip3]⟩

/-- C4: the spec's end-to-end example.  The descriptor mapping
`{HBD: 2, MW: 300, QED: 0.8, LogP: 3, HBA: 4}` (in the key order produced by
`calculate_lipinski_properties`) with the application's fixed bounds
`min_values = [0, 100, 0, 0, 0]` and `max_values = [5, 500, 1, 5, 10]`
normalizes to exactly `[0.4, 0.5, 0.8, 0.6, 0.4]`. -/
theorem radar_example_normalization :
    radar_normalized_values
        ([("HBD", (2 : ℚ)), ("MW", 300), ("QED", 0.8), ("LogP", 3), ("HBA", 4)].map Prod.snd)
        min_values max_values = Except.ok [0.4, 0.5, 0.8, 0.6, 0.4] := by
  norm_num [radar_normalized_values, normalizeList, zip3, min_values, max_values]

/-! ## Lipinski properties and 2-D depiction (src/app.py lines 15-43 and 90-93)

RDKit is an external collaborator: `Chem.MolFromSmiles` returns Python `None`
on an unparseable SMILES string, modelled as an `Option`-valued `parse`
parameter, and the descriptor functions (`Descriptors.MolWt`, `NumHDonors`,
`NumHAcceptors`, `MolLogP`, `QED.qed`) and `Draw.MolToImage` are opaque
functions on parsed molecules, also passed as parameters. -/

/-- Embedding of `calculate_lipinski_properties` (src/app.py lines 15-43).
The source never checks `mol` for `None`: when `Chem.MolFromSmiles` fails, the
very first descriptor call `Descriptors.MolWt(None)` at line 20 raises an
uncaught Boost.Python `ArgumentError`, modelled as `.error .argumentError`.
On success the function computes the five descriptors, computes the
rule-of-five boolean `is_pass` (lines 27-32) which it never uses, and returns
the dictionary of lines 35-41, modelled as a key-value list in insertion
order `HBD, MW, QED, LogP, HBA`. -/
def calculate_lipinski_properties (Mol : Type) (parse : String → Option Mol)
    (MolWt NumHDonors NumHAcceptors MolLogP qed : Mol → ℚ) (smiles : String) :
    Except PyError (List (String × ℚ)) :=
  match parse smiles with
  | none => Except.error PyError.argumentError
  | some mol =>
      let molecular_weight := MolWt mol
      let num_hydrogen_bond_donors := NumHDonors mol
      let num_hydrogen_bond_acceptors := NumHAcceptors mol
      let logp := MolLogP mol
      let qed_value := qed mol
      let is_pass : Bool :=
        molecular_weight ≤ 500 ∧ num_hydrogen_bond_donors ≤ 5 ∧
          num_hydrogen_bond_acceptors ≤ 10 ∧ logp ≤ 5
      let _ := is_pass
      Except.ok [("HBD", num_hydrogen_bond_donors), ("MW", molecular_weight),
        ("QED", qed_value), ("LogP", logp), ("HBA", num_hydrogen_bond_acceptors)]

/-- Embedding of `chemical_struture_2d` (src/app.py lines 90-93, name kept with
the source's typo).  On a failed parse, `Draw.MolToImage(None)` raises an
uncaught `ValueError`, modelled as `.error .valueError`. -/
def chemical_struture_2d (Mol Img : Type) (parse : String → Option Mol)
    (MolToImage : Mol → Img) (smiles : String) : Except PyError Img :=
  match parse smiles with
  | none => Except.error PyError.valueError
  | some m => Except.ok (MolToImage m)

/-- C8 (counterexample): with the parse service failing (RDKit returning
`None` on the malformed encoding `"C("`), the descriptor computation fails
with the uncaught `ArgumentError` and the depiction with the uncaught
`ValueError` — neither is the named `InvalidStructureError` the spec
postulates, and no code converts them into a "cannot render" state. -/
theorem invalid_structure_cex :
    calculate_lipinski_properties Unit (fun _ => none) (fun _ => 0) (fun _ => 0) (fun _ => 0)
        (fun _ => 0) (fun _ => 0) "C(" = Except.error PyError.argumentError ∧
      chemical_struture_2d Unit Unit (fun _ => none) (fun _ => ()) "C(" =
        Except.error PyError.valueError ∧
      PyError.argumentError ≠ PyError.invalidStructureError ∧
      PyError.valueError ≠ PyError.invalidStructureError := by
  refine ⟨rfl, rfl, fun h => ?_, fun h => ?_⟩ <;> cases h

/-- C8 (amended): on every structure encoding the parse service rejects, the
descriptor computation raises an uncaught `ArgumentError` (from calling an
RDKit descriptor on `None`) and the 2-D depiction raises an uncaught
`ValueError` (from `Draw.MolToImage(None)`); no `InvalidStructureError`
exists and no handler produces a graceful cannot-render state. -/
theorem invalid_structure_uncaught (Mol Img : Type) (parse : String → Option Mol)
    (MolWt NumHDonors NumHAcceptors MolLogP qed : Mol → ℚ) (MolToImage : Mol → Img)
    (smiles : String) (h : parse smiles = none) :
    calculate_lipinski_properties Mol parse MolWt NumHDonors NumHAcceptors MolLogP qed smiles =
        Except.error PyError.argumentError ∧
      chemical_struture_2d Mol Img parse MolToImage smiles =
        Except.error PyError.valueError := by
  constructor <;> simp [calculate_lipinski_properties, chemical_struture_2d, h]

/-- Witness for `invalid_structure_uncaught` at a concrete failing parse. -/
theorem invalid_structure_uncaught_witness :
    calculate_lipinski_properties Unit (fun _ => none) (fun _ => 0) (fun _ => 0) (fun _ => 0)
        (fun _ => 0) (fun _ => 0) "xyz" = Except.error PyError.argumentError ∧
      chemical_struture_2d Unit Unit (fun _ => none) (fun _ => ()) "xyz" =
        Except.error PyError.valueError :=
  invalid_structure_uncaught Unit Unit (fun _ => none) (fun _ => 0) (fun _ => 0) (fun _ => 0)
    (fun _ => 0) (fun _ => 0) (fun _ => ()) "xyz" rfl

/-- C10: whenever the parse succeeds, `calculate_lipinski_properties` returns
a mapping with exactly the keys `HBD, MW, QED, LogP, HBA` in that fixed
order — the positional order of the radar bounds `min_values`/`max_values`,
whose lengths match — and the values are the corresponding descriptors of the
parsed molecule; the `is_pass` rule-of-five boolean is not part of the
returned value (the result type carries only the five name-number pairs). -/
theorem lipinski_keys_fixed (Mol : Type) (parse : String → Option Mol)
    (MolWt NumHDonors NumHAcceptors MolLogP qed : Mol → ℚ) (smiles : String) (mol : Mol)
    (h : parse smiles = some mol) :
    calculate_lipinski_properties Mol parse MolWt NumHDonors NumHAcceptors MolLogP qed smiles =
        Except.ok [("HBD", NumHDonors mol), ("MW", MolWt mol), ("QED", qed mol),
          ("LogP", MolLogP mol), ("HBA", NumHAcceptors mol)] ∧
      [("HBD", NumHDonors mol), ("MW", MolWt mol), ("QED", qed mol),
          ("LogP", MolLogP mol), ("HBA", NumHAcceptors mol)].map Prod.fst =
        ["HBD", "MW", "QED", "LogP", "HBA"] ∧
      (["HBD", "MW", "QED", "LogP", "HBA"] : List String).length = min_values.length ∧
      (["HBD", "MW", "QED", "LogP", "HBA"] : List String).length = max_values.length := by
  refine ⟨?_, rfl, rfl, rfl⟩
  simp [calculate_lipinski_properties, h]

/-- Witness for `lipinski_keys_fixed` at a concrete successful parse. -/
theorem lipinski_keys_fixed_witness :
    calculate_lipinski_properties Unit (fun _ => some ()) (fun _ => 300) (fun _ => 2)
        (fun _ => 4) (fun _ => 3) (fun _ => 0.8) "CCO" =
        Except.ok [("HBD", 2), ("MW", 300), ("QED", 0.8), ("LogP", 3), ("HBA", 4)] ∧
      ([("HBD", (2 : ℚ)), ("MW", 300), ("QED", 0.8), ("LogP", 3), ("HBA", 4)].map Prod.fst =
        ["HBD", "MW", "QED", "LogP", "HBA"]) ∧
      (["HBD", "MW", "QED", "LogP", "HBA"] : List String).length = min_values.length ∧
      (["HBD", "MW", "QED", "LogP", "HBA"] : List String).length = max_values.length :=
  lipinski_keys_fixed Unit (fun _ => some ()) (fun _ => 300) (fun _ => 2) (fun _ => 4)
    (fun _ => 3) (fun _ => 0.8) "CCO" () rfl

/-! ## Dataset rows and the statistics tab (src/app.py lines 205-223)

One row of `data/medicamentos.xlsx` as the app reads it.  Only the columns
the statistics and time-series tabs touch are kept; the numeric descriptor
columns are represented by three representative fields, and the statistics
functions take the column to describe as an accessor, since pandas
`describe` works column by column. -/
structure DrugRecord where
  farmaco : String
  canonical_smiles : String
  via_administracao : String
  periodo : String
  massa_molecular : ℚ
  log_p : ℚ
  qed : ℚ
  deriving DecidableEq, Repr

/-- The four options of the route radio button at line 208. -/
inductive Via where
  | todas
  | oral
  | parenteral
  | topica
  deriving DecidableEq, Repr

/-- The row filters of the `if`/`elif` chain at lines 209-216: `Todas` keeps
every row, the other options keep the rows whose `via_administracao` equals
the lowercase category string used in the code. -/
def via_filter : Via → List DrugRecord → List DrugRecord
  | Via.todas, df => df
  | Via.oral, df => df.filter (fun r => r.via_administracao == "oral")
  | Via.parenteral, df => df.filter (fun r => r.via_administracao == "parenteral")
  | Via.topica, df => df.filter (fun r => r.via_administracao == "topical")

/-- Ascending insertion of one value into a sorted list. -/
def insertSorted (x : ℚ) : List ℚ → List ℚ
  | [] => [x]
  | y :: ys => if x ≤ y then x :: y :: ys else y :: insertSorted x ys

/-- Ascending sort, as used by the quantile computation. -/
def sortQ (xs : List ℚ) : List ℚ := xs.foldr insertSorted []

/-- The linear-interpolation quantile pandas/numpy compute: on the sorted
values `s_0 ≤ … ≤ s_(n-1)`, the `q`-quantile sits at position `h = (n-1)·q`
and interpolates linearly between `s_⌊h⌋` and the next value; `none` on an
empty column (pandas prints `NaN`). -/
def quantile (xs : List ℚ) (q : ℚ) : Option ℚ :=
  match sortQ xs with
  | [] => none
  | s =>
      let h : ℚ := ((s.length : ℚ) - 1) * q
      let i : ℕ := (⌊h⌋).toNat
      let lo := s.getD i 0
      let hi := s.getD (i + 1) lo
      some (lo + (h - (⌊h⌋ : ℚ)) * (hi - lo))

/-- The per-column output of `DataFrame.describe([.25, .5, .75, .9])`
(line 210): count, mean, standard deviation, minimum, the four requested
percentiles, and maximum.  pandas always includes the `min` and `max` rows.
Undefined entries (empty column, or fewer than 2 values for the standard
deviation) are `none`, where pandas prints `NaN`.  The standard-deviation row
is modelled by its square, the `ddof = 1` sample variance, because `ℚ` has no
square root; no claim inspects the standard deviation's value, only the row's
presence. -/
structure ColStats where
  count : ℕ
  mean : Option ℚ
  std_sq : Option ℚ
  min : Option ℚ
  p25 : Option ℚ
  p50 : Option ℚ
  p75 : Option ℚ
  p90 : Option ℚ
  max : Option ℚ
  deriving DecidableEq, Repr

/-- `describe` of one numeric column with percentiles `[.25, .5, .75, .9]`. -/
def describeColumn (xs : List ℚ) : ColStats :=
  let n := xs.length
  { count := n
    mean := if n = 0 then none else some (xs.sum / (n : ℚ))
    std_sq :=
      if n < 2 then none
      else some ((xs.map fun x => (x - xs.sum / (n : ℚ)) ^ 2).sum / ((n : ℚ) - 1))
    min := (sortQ xs).head?
    p25 := quantile xs (1/4)
    p50 := quantile xs (1/2)
    p75 := quantile xs (3/4)
    p90 := quantile xs (9/10)
    max := (sortQ xs).getLast? }

/-- Lines 209-216: the statistics tab filters the dataframe by the selected
administration route and calls `describe([.25, .5, .75, .9])` on the result
(the subsequent `rename` at lines 219-222 only relabels three index entries
to Portuguese and is presentational).  Stated per numeric column. -/
def df_estatistico (via_admin : Via) (df : List DrugRecord) (col : DrugRecord → ℚ) :
    ColStats :=
  describeColumn ((via_filter via_admin df).map col)

/-- The row index `describe([.25, .5, .75, .9])` produces for a numeric
column: pandas always inserts `min` before and `max` after the requested
percentiles. -/
def describe_index (percentile_labels : List String) : List String :=
  ["count", "mean", "std", "min"] ++ percentile_labels ++ ["max"]

/-- The row index of the statistics tab's table (line 210). -/
def df_estatistico_index : List String := describe_index ["25%", "50%", "75%", "90%"]

/-- Follows the spec's words (refinement comparison): the statistics the spec
says the table consists of — count, mean, standard deviation and the
25th/50th/75th/90th percentiles, with no minimum or maximum. -/
def spec_statistic_index : List String :=
  ["count", "mean", "std", "25%", "50%", "75%", "90%"]

/-- C5: whenever the route filter leaves zero records (for any dataset, any
route selection and any numeric column), the statistics tab produces the
empty-result statistics — count 0 and every other entry undefined — rather
than raising an error. -/
theorem empty_route_filter_empty_stats (via : Via) (df : List DrugRecord)
    (col : DrugRecord → ℚ) (h : via_filter via df = []) :
    df_estatistico via df col =
      { count := 0, mean := none, std_sq := none, min := none,
        p25 := none, p50 := none, p75 := none, p90 := none, max := none } := by
  rw [df_estatistico, h]
  rfl

/-- Witness for `empty_route_filter_empty_stats`: a dataset with a single
oral record, filtered by the parenteral route. -/
theorem empty_route_filter_empty_stats_witness :
    df_estatistico Via.parenteral
        [{ farmaco := "aspirin", canonical_smiles := "CC(=O)Oc1ccccc1C(=O)O",
           via_administracao := "oral", periodo := "1980-2000",
           massa_molecular := 180, log_p := 1.2, qed := 0.55 }]
        DrugRecord.massa_molecular =
      { count := 0, mean := none, std_sq := none, min := none,
        p25 := none, p50 := none, p75 := none, p90 := none, max := none } :=
  empty_route_filter_empty_stats Via.parenteral _ DrugRecord.massa_molecular rfl

/-- C9 (counterexample): the describe table does not consist only of count,
mean, std and the four percentiles — pandas always appends the `min` and
`max` rows, and on the spec's own 4-record example those rows carry the
values 200 and 500. -/
theorem describe_rows_cex :
    df_estatistico_index ≠ spec_statistic_index ∧
      "min" ∈ df_estatistico_index ∧ "min" ∉ spec_statistic_index ∧
      "max" ∈ df_estatistico_index ∧ "max" ∉ spec_statistic_index ∧
      (describeColumn [200, 300, 400, 500]).min = some 200 ∧
      (describeColumn [200, 300, 400, 500]).max = some 500 := by
  refine ⟨by decide, by decide, by decide, by decide, by decide, ?_, ?_⟩ <;>
    norm_num [describeColumn, sortQ, insertSorted]

/-- C9 (amended): the describe table consists of count, mean, standard
deviation, minimum, the 25th/50th/75th/90th percentiles and maximum; on the
4-record example with molecular weights 200, 300, 400, 500 (here as one
oral/parenteral mix of dataset rows, described without filtering) the count
is 4, the mean 350 and the 50th percentile 350 (and the other percentiles
interpolate to 275, 425 and 470). -/
theorem describe_stats_amended :
    df_estatistico_index =
        ["count", "mean", "std", "min", "25%", "50%", "75%", "90%", "max"] ∧
      (df_estatistico Via.todas
          [{ farmaco := "a", canonical_smiles := "C", via_administracao := "oral",
             periodo := "p", massa_molecular := 200, log_p := 0, qed := 0 },
           { farmaco := "b", canonical_smiles := "CC", via_administracao := "oral",
             periodo := "p", massa_molecular := 300, log_p := 0, qed := 0 },
           { farmaco := "c", canonical_smiles := "CCC", via_administracao := "parenteral",
             periodo := "q", massa_molecular := 400, log_p := 0, qed := 0 },
           { farmaco := "d", canonical_smiles := "CCCC", via_administracao := "topical",
             periodo := "q", massa_molecular := 500, log_p := 0, qed := 0 }]
          DrugRecord.massa_molecular).count = 4 ∧
      (describeColumn [200, 300, 400, 500]).mean = some 350 ∧
      (describeColumn [200, 300, 400, 500]).p50 = some 350 ∧
      (describeColumn [200, 300, 400, 500]).p25 = some 275 ∧
      (describeColumn [200, 300, 400, 500]).p75 = some 425 ∧
      (describeColumn [200, 300, 400, 500]).p90 = some 470 := by
  refine ⟨by decide, by decide, ?_, ?_, ?_, ?_, ?_⟩ <;>
    norm_num [describeColumn, quantile, sortQ, insertSorted, show ((2:ℤ).toNat = 2) from rfl]

/-! ## Period comparison matrix (src/app.py lines 225-260)

Line 256 calls `sp.posthoc_mannwhitney(dataframe, val_col=prop_quimica,
group_col="periodo", p_adjust='holm')`, which runs a two-sided two-sample
Mann-Whitney U test for every unordered pair of distinct periods, adjusts the
p-values with statsmodels `multipletests(method='holm')`, mirrors the upper
triangle onto the lower one and fills the diagonal with the constant 1.
The `multipletests` preamble divides by the number of tests before any
method branch (`alphacSidak = 1 - (1 - alpha)**(1/ntests)` and
`alphacBonf = alpha/ntests`), so on an empty p-vector — which happens exactly
when there are fewer than 2 distinct periods and hence zero pairs — it
raises an uncaught `ZeroDivisionError` and no matrix is produced.  The scipy
p-value routine is an external floating-point collaborator, passed as the
parameter `pfun`. -/

/-- pandas `Series.unique`: distinct values in order of first appearance. -/
def uniqueKeep (l : List String) : List String :=
  l.foldl (fun acc x => if acc.contains x then acc else acc ++ [x]) []

/-- The distinct period labels of the dataset (`group_col="periodo"`), in
order of first appearance.  (With its default `sort=True` the library first
sorts the frame by the group column, which can permute this list; the order
is presentational — every property stated below addresses cells by label or
is order-invariant.) -/
def pc_groups (df : List DrugRecord) : List String :=
  uniqueKeep (df.map fun r => r.periodo)

/-- The chosen descriptor's values within one period group. -/
def groupValues (df : List DrugRecord) (col : DrugRecord → ℚ) (g : String) : List ℚ :=
  (df.filter fun r => r.periodo == g).map col

/-- `itertools.combinations(range(n), 2)`: the strictly upper-triangular
index pairs, in lexicographic order. -/
def combPairs (n : ℕ) : List (ℕ × ℕ) :=
  (List.range n).flatMap fun i => ((List.range n).filter fun j => i < j).map fun j => (i, j)

/-- Stable ascending insertion by the first component. -/
def insertByFst (x : ℚ × ℕ) : List (ℚ × ℕ) → List (ℚ × ℕ)
  | [] => [x]
  | y :: ys => if x.1 < y.1 then x :: y :: ys else y :: insertByFst x ys

/-- Stable ascending sort by the first component. -/
def sortByFst (l : List (ℚ × ℕ)) : List (ℚ × ℕ) :=
  l.foldl (fun acc x => insertByFst x acc) []

/-- The running pass of Holm's step-down adjustment over the p-values sorted
ascending (paired with their original positions): the `k`-th smallest raw
value is multiplied by `m - k`, running maxima are taken, and the reported
value is clipped at 1. -/
def holmRunning (m : ℕ) : ℚ → ℕ → List (ℚ × ℕ) → List (ℚ × ℕ)
  | _, _, [] => []
  | acc, k, pi :: rest =>
      let v := max acc (((m : ℚ) - (k : ℚ)) * pi.1)
      (min v 1, pi.2) :: holmRunning m v (k + 1) rest

/-- The adjusted p-values (in the original order) that statsmodels
`multipletests(method='holm')` returns once its preamble has passed, i.e.
on a nonempty p-vector.  The full call, including the `ZeroDivisionError`
the preamble raises on an empty vector, is `multipletests` below. -/
def holmAdjust (ps : List ℚ) : List ℚ :=
  let m := ps.length
  let sorted := sortByFst (ps.enum.map fun ip => (ip.2, ip.1))
  let adj := holmRunning m 0 0 sorted
  (List.range m).map fun i => ((adj.find? fun q => q.2 == i).map Prod.fst).getD 0

/-- statsmodels `multipletests(pvals, method='holm')`: before any method
branch it computes `alphacSidak` and `alphacBonf`, each dividing by
`ntests = len(pvals)`, so an empty p-vector raises an uncaught
`ZeroDivisionError`; otherwise the Holm step-down adjusted values are
returned. -/
def multipletests (ps : List ℚ) : Except PyError (List ℚ) :=
  if ps.length = 0 then Except.error PyError.zeroDivisionError
  else Except.ok (holmAdjust ps)

/-- The raw p-values of line 256, one per unordered pair of periods in
combinations order. -/
def pc_rawPvals (pfun : List ℚ → List ℚ → ℚ) (df : List DrugRecord)
    (col : DrugRecord → ℚ) : List ℚ :=
  (combPairs (pc_groups df).length).map fun ij =>
    pfun (groupValues df col ((pc_groups df).getD ij.1 ""))
      (groupValues df col ((pc_groups df).getD ij.2 ""))

/-- One cell of the scikit-posthocs result matrix: the upper triangle holds
the Holm-adjusted p-values, the lower triangle mirrors the upper
(`vs[tri_lower] = vs.T[tri_lower]`), and the diagonal is the fill constant 1. -/
def pcEntry (adj : List ℚ) (n i j : ℕ) : ℚ :=
  if i = j then 1
  else if i < j then adj.getD ((combPairs n).findIdx fun ij => ij == (i, j)) 0
  else adj.getD ((combPairs n).findIdx fun ij => ij == (j, i)) 0

/-- The matrix cell addressed by two period labels, as the DataFrame returned
at line 256 is indexed by period label on both axes.  This denotes the cells
of the matrix the call produces when it succeeds — which it does exactly when
at least one pair exists, i.e. at least 2 distinct periods (see
`posthoc_mannwhitney` for the full call including its failure mode). -/
def pc (pfun : List ℚ → List ℚ → ℚ) (df : List DrugRecord) (col : DrugRecord → ℚ)
    (a b : String) : ℚ :=
  pcEntry (holmAdjust (pc_rawPvals pfun df col)) (pc_groups df).length
    ((pc_groups df).findIdx fun g => g == a) ((pc_groups df).findIdx fun g => g == b)

/-- Lines 234-260: once a property is selected, the code unconditionally runs
`pc = sp.posthoc_mannwhitney(dataframe, val_col=prop_quimica,
group_col="periodo", p_adjust='holm')` and renders the result with
`sign_plot`.  There is no check on the number of distinct periods, and no
descriptive statistics are computed in this tab (those live in the unrelated
tab 5).  The raw pairwise p-values of the upper triangle are handed to
`multipletests`, whose `ZeroDivisionError` on the empty p-vector propagates
out of the tab uncaught; on success the mirrored matrix with diagonal 1 is
returned, row by row. -/
def posthoc_mannwhitney (pfun : List ℚ → List ℚ → ℚ) (df : List DrugRecord)
    (col : DrugRecord → ℚ) : Except PyError (List (List ℚ)) :=
  match multipletests (pc_rawPvals pfun df col) with
  | Except.error e => Except.error e
  | Except.ok adj =>
      Except.ok ((List.range (pc_groups df).length).map fun i =>
        (List.range (pc_groups df).length).map fun j =>
          pcEntry adj (pc_groups df).length i j)

/-- C6: the period-comparison matrix is symmetric — for any two period labels
the cell addressed by `(A, B)` equals the cell addressed by `(B, A)`,
whatever the dataset, descriptor and p-value routine. -/
theorem pc_symmetric (pfun : List ℚ → List ℚ → ℚ) (df : List DrugRecord)
    (col : DrugRecord → ℚ) (a b : String)
    (_ha : a ∈ pc_groups df) (_hb : b ∈ pc_groups df) :
    pc pfun df col a b = pc pfun df col b a := by
  have key : ∀ (adj : List ℚ) (n i j : ℕ), pcEntry adj n i j = pcEntry adj n j i := by
    intro adj n i j
    unfold pcEntry
    rcases lt_trichotomy i j with h | h | h
    · rw [if_neg (by omega), if_pos h, if_neg (by omega), if_neg (by omega)]
    · simp [h]
    · rw [if_neg (by omega), if_neg (by omega), if_neg (by omega), if_pos h]
  exact key _ _ _ _

/-- Witness for `pc_symmetric`: two periods actually present in a concrete
dataset. -/
theorem pc_symmetric_witness :
    pc (fun _ _ => 1/2)
        [{ farmaco := "a", canonical_smiles := "C", via_administracao := "oral",
           periodo := "1960-1980", massa_molecular := 200, log_p := 0, qed := 0 },
         { farmaco := "b", canonical_smiles := "CC", via_administracao := "oral",
           periodo := "1980-2000", massa_molecular := 300, log_p := 0, qed := 0 }]
        DrugRecord.massa_molecular "1960-1980" "1980-2000" =
      pc (fun _ _ => 1/2)
        [{ farmaco := "a", canonical_smiles := "C", via_administracao := "oral",
           periodo := "1960-1980", massa_molecular := 200, log_p := 0, qed := 0 },
         { farmaco := "b", canonical_smiles := "CC", via_administracao := "oral",
           periodo := "1980-2000", massa_molecular := 300, log_p := 0, qed := 0 }]
        DrugRecord.massa_molecular "1980-2000" "1960-1980" :=
  pc_symmetric (fun _ _ => 1/2) _ DrugRecord.massa_molecular "1960-1980" "1980-2000"
    (by simp [pc_groups, uniqueKeep]) (by simp [pc_groups, uniqueKeep])

/-- C7 (counterexample): on a dataset whose records all share one period, the
time-series pipeline does not skip the pairwise-comparison step and return
descriptive statistics (which this tab never computes): line 256 is invoked
unconditionally, runs zero pairwise tests, and the Holm-correction call on
the resulting empty p-vector raises an uncaught `ZeroDivisionError` — the
tab crashes and nothing is returned or rendered. -/
theorem tab6_single_period_cex :
    (pc_groups
        [{ farmaco := "a", canonical_smiles := "C", via_administracao := "oral",
           periodo := "1990", massa_molecular := 200, log_p := 0, qed := 0 },
         { farmaco := "b", canonical_smiles := "CC", via_administracao := "oral",
           periodo := "1990", massa_molecular := 300, log_p := 0, qed := 0 }]).length < 2 ∧
      pc_rawPvals (fun _ _ => 1/2)
        [{ farmaco := "a", canonical_smiles := "C", via_administracao := "oral",
           periodo := "1990", massa_molecular := 200, log_p := 0, qed := 0 },
         { farmaco := "b", canonical_smiles := "CC", via_administracao := "oral",
           periodo := "1990", massa_molecular := 300, log_p := 0, qed := 0 }]
        DrugRecord.massa_molecular = [] ∧
      posthoc_mannwhitney (fun _ _ => 1/2)
        [{ farmaco := "a", canonical_smiles := "C", via_administracao := "oral",
           periodo := "1990", massa_molecular := 200, log_p := 0, qed := 0 },
         { farmaco := "b", canonical_smiles := "CC", via_administracao := "oral",
           periodo := "1990", massa_molecular := 300, log_p := 0, qed := 0 }]
        DrugRecord.massa_molecular = Except.error PyError.zeroDivisionError := by
  refine ⟨by simp [pc_groups, uniqueKeep], ?_, ?_⟩
  · simp [pc_rawPvals, pc_groups, uniqueKeep, combPairs, List.range_succ]
  · rfl

/-- C7 (amended): the pipeline performs no distinct-period check and invokes
the pairwise-comparison step unconditionally; when fewer than 2 distinct
periods exist there are zero pairwise tests, and the unconditional Holm
correction (statsmodels `multipletests` on the then-empty p-vector) raises
an uncaught `ZeroDivisionError`, so the tab crashes and no significance
matrix is produced — it never returns descriptive statistics, which this tab
does not compute. -/
theorem tab6_no_period_check (pfun : List ℚ → List ℚ → ℚ) (df : List DrugRecord)
    (col : DrugRecord → ℚ) (h : (pc_groups df).length < 2) :
    pc_rawPvals pfun df col = [] ∧
      posthoc_mannwhitney pfun df col = Except.error PyError.zeroDivisionError := by
  have hn : (pc_groups df).length = 0 ∨ (pc_groups df).length = 1 := by omega
  have hraw : pc_rawPvals pfun df col = [] := by
    unfold pc_rawPvals
    rcases hn with h0 | h1
    · rw [h0]; rfl
    · rw [h1]; rfl
  refine ⟨hraw, ?_⟩
  unfold posthoc_mannwhitney
  rw [hraw]
  rfl

/-- Witness for `tab6_no_period_check` at a concrete one-period dataset. -/
theorem tab6_no_period_check_witness :
    pc_rawPvals (fun _ _ => 1/2)
        [{ farmaco := "a", canonical_smiles := "C", via_administracao := "oral",
           periodo := "1990", massa_molecular := 200, log_p := 0, qed := 0 }]
        DrugRecord.log_p = [] ∧
      posthoc_mannwhitney (fun _ _ => 1/2)
        [{ farmaco := "a", canonical_smiles := "C", via_administracao := "oral",
           periodo := "1990", massa_molecular := 200, log_p := 0, qed := 0 }]
        DrugRecord.log_p = Except.error PyError.zeroDivisionError :=
  tab6_no_period_check (fun _ _ => 1/2) _ DrugRecord.log_p
    (by simp [pc_groups, uniqueKeep])

end ProjetoQFM
